import Mathlib

/-
Verification of `transcribe-vaam-video-with-gemini.ts`, a CLI tool that
resolves a Vaam share URL to a playable media URL, downloads the video to a
temporary file, sends it to the Gemini API for transcription, and prints the
transcript.  The embedding below models the whole `main` control flow,
including the JS truthiness tests the source relies on, the ordering of the
validation checks, the `try`/`finally` block around the pipeline, and the
fact that `process.exit()` terminates the process immediately without
running pending `finally` blocks (standard Node/Bun semantics).

External effects (the Vaam resolver fetch, the download fetch/write, the
Gemini call) are oracles supplied by a `World` value; everything else is a
direct translation of the source.
-/

set_option autoImplicit false

/-- The closed error taxonomy of the tool (source `type ErrorCode`). -/
inductive ErrorCode where
  | MISSING_ARGUMENT
  | INVALID_URL
  | MISSING_API_KEY
  | VIDEO_EXTRACTION_FAILED
  | VIDEO_DOWNLOAD_FAILED
  | TRANSCRIPTION_FAILED
  deriving DecidableEq, Repr

/-- Structured error payload (source `interface ErrorResult`); the source's
constant `success: false` field is implicit in the type. -/
structure ErrorResult where
  code : ErrorCode
  message : String
  details : String
  suggestion : String
  deriving DecidableEq, Repr

/-- Source `createError`. -/
def createError (code : ErrorCode) (message details suggestion : String) :
    ErrorResult :=
  { code := code, message := message, details := details,
    suggestion := suggestion }

/-- Source `getExitCode`: the fixed error-code → exit-code mapping. -/
def getExitCode : ErrorCode → Nat
  | .MISSING_ARGUMENT => 1
  | .INVALID_URL => 1
  | .MISSING_API_KEY => 1
  | .VIDEO_EXTRACTION_FAILED => 2
  | .VIDEO_DOWNLOAD_FAILED => 2
  | .TRANSCRIPTION_FAILED => 2

/-- The platform temporary directory (`tmpdir()`), modelled as a constant. -/
def tmpdirPath : String := "/tmp"

/-- Source `TEMP_DIR = join(tmpdir(), "gemini-analyze-video")`. -/
def TEMP_DIR : String := tmpdirPath ++ ("/gemini-analyze-video")

/-- A character matched by the JS character class `[\w-]` (no unicode flag):
ASCII letters, digits, underscore, or hyphen. -/
def isShareIdChar (c : Char) : Bool :=
  c.isAlphanum || c = '_' || c = '-'

/-- The fixed literal part of `VAAM_URL_PATTERN`. -/
def vaamShareHead : String := "https://app.vaam.io/share/"

/-- Source `extractCaptureId`: matches the anchored regex
`^https:\/\/app\.vaam\.io\/share\/([\w-]+)$` and returns the captured id,
or `none` when the URL does not match. -/
def extractCaptureId (url : String) : Option String :=
  let cs := url.data
  let head := vaamShareHead.data
  if head.isPrefixOf cs then
    let rest := cs.drop head.length
    if !rest.isEmpty && rest.all isShareIdChar then some (String.mk rest)
    else none
  else none

/-- Resolver response payload with the three optional format fields
(source `{ mp4?: string; webm?: string; hls?: string }`). -/
structure MediaDescriptor where
  mp4 : Option String
  webm : Option String
  hls : Option String
  deriving DecidableEq, Repr

/-- JS `a || b` on an optional string `a`: a present but empty string is
falsy and falls through to `b`. -/
def jsOrString : Option String → Option String → Option String
  | some s, b => if s = "" then b else some s
  | none, b => b

/-- The selection `data.mp4 || data.webm || data.hls || null` from
`extractVideoUrl` (source line 197). -/
def selectVideoUrl (d : MediaDescriptor) : Option String :=
  jsOrString d.mp4 (jsOrString d.webm (jsOrString d.hls none))

/-- Outcome of the resolver `fetch` + `response.json()` pair:
the request (or JSON parse) throws, the response has a non-success status,
or it yields a parsed body — `ok none` models a falsy (`null`) body, which
the source turns into `undefined` via `|| undefined`. -/
inductive ResolverOutcome where
  | throws (msg : String)
  | notOk
  | ok (body : Option MediaDescriptor)
  deriving DecidableEq, Repr

/-- Oracle for the three external effects of one invocation. `download` and
`transcribe` either throw with a message or succeed (the download success
value is the displayed size string, the transcription success value is the
model's transcript). `dlTimestamp` is the `Date.now()` used for the
temporary file name. -/
structure World where
  resolver : ResolverOutcome
  dlTimestamp : Nat
  download : Except String String
  transcribe : Except String String
  deriving Repr

/-- One line written to stdout: either plain text (`console.log` of help,
progress logs, or the transcript) or a structured error object printed by
`outputError`. -/
inductive OutLine where
  | text (s : String)
  | errObj (e : ErrorResult)
  deriving DecidableEq, Repr

/-- Source `log`: writes to stdout only when verbose mode is on. -/
def logIf (verbose : Bool) (message : String) : List OutLine :=
  if verbose then [OutLine.text message] else []

/-- Final observable state of one process run: everything written to
stdout in order, the exit code, whether the downloaded temporary file is
still on disk when the process exits, and how many times `cleanup` ran. -/
structure RunResult where
  stdout : List OutLine
  exitCode : Nat
  tempFileExists : Bool
  cleanupRuns : Nat
  deriving DecidableEq, Repr

/-- The error codes of the error objects in a list of stdout lines. -/
def errCodesOf (ls : List OutLine) : List ErrorCode :=
  ls.filterMap fun l =>
    match l with
    | .errObj e => some e.code
    | .text _ => none

/-- The error codes of the error objects a run wrote to stdout, in order. -/
def errorCodes (r : RunResult) : List ErrorCode :=
  errCodesOf r.stdout

/-- Source `showHelp` text (abridged only in incidental formatting). -/
def helpText : String :=
  "transcribe-vaam-video-with-gemini.ts - Transcribe Vaam videos using Gemini AI\n\nUSAGE:\n  bun transcribe-vaam-video-with-gemini.ts [OPTIONS] <vaam-url>\n\nARGUMENTS:\n  <vaam-url>    Vaam share URL (e.g., https://app.vaam.io/share/abc123)\n\nOPTIONS:\n  --help, -h     Show this help message\n  --verbose, -v  Enable progress logging\n\nENVIRONMENT:\n  GEMINI_API_KEY  Required. Your Google Gemini API key.\n\nEXIT CODES:\n  0  Success\n  1  Usage/validation error (bad input, missing API key)\n  2  Runtime error (network failure, API error)"

/-- The `MISSING_ARGUMENT` error built at source lines 292-297. -/
def missingArgumentError : ErrorResult :=
  createError .MISSING_ARGUMENT ("No Vaam URL provided")
    ("This command requires a Vaam share URL as an argument.")
    ("Run with --help to see usage examples, or provide a URL like: bun transcribe-vaam-video-with-gemini.ts https://app.vaam.io/share/abc123")

/-- The `INVALID_URL` error built at source lines 304-309. -/
def invalidUrlError (vaamUrl : String) : ErrorResult :=
  createError .INVALID_URL ("Invalid Vaam URL format")
    ("Received: \"" ++ vaamUrl ++ "\". Expected format: https://app.vaam.io/share/[id]")
    ("Ensure the URL matches the pattern https://app.vaam.io/share/[alphanumeric-id]. The ID can contain letters, numbers, and hyphens.")

/-- The `MISSING_API_KEY` error built at source lines 317-322. -/
def missingApiKeyError : ErrorResult :=
  createError .MISSING_API_KEY ("GEMINI_API_KEY environment variable not set")
    ("The Gemini API key is required to transcribe videos.")
    ("Set the GEMINI_API_KEY environment variable. You can get an API key from https://aistudio.google.com/apikey")

/-- The extra `VIDEO_DOWNLOAD_FAILED` error `extractVideoUrl` prints itself
when the parsed body is falsy (source line 191). -/
def nullBodyError : ErrorResult :=
  createError .VIDEO_DOWNLOAD_FAILED
    ("Failed to extract video URL from Vaam API response") ("")
    ("Validate the link")

/-- The `VIDEO_EXTRACTION_FAILED` error built at source lines 333-338. -/
def extractionFailedError (vaamUrl : String) : ErrorResult :=
  createError .VIDEO_EXTRACTION_FAILED
    ("Could not extract video URL from Vaam")
    ("The Vaam API did not return a video URL for: " ++ vaamUrl)
    ("Verify the Vaam link is valid and the video exists. The video may have been deleted or the link may have expired.")

/-- The `VIDEO_DOWNLOAD_FAILED` error built at source lines 350-355. -/
def downloadFailedError (msg : String) : ErrorResult :=
  createError .VIDEO_DOWNLOAD_FAILED ("Failed to download video file")
    ("Download error: " ++ msg)
    ("Check your network connection. The video URL may have expired or the server may be temporarily unavailable.")

/-- The `TRANSCRIPTION_FAILED` error built at source lines 366-371. -/
def transcriptionFailedError (msg : String) : ErrorResult :=
  createError .TRANSCRIPTION_FAILED ("Gemini API transcription error")
    ("Transcription error: " ++ msg)
    ("Check your GEMINI_API_KEY is valid. The video may be too large, corrupted, or in an unsupported format. Gemini supports videos up to 2GB.")

/-- The `TRANSCRIPTION_FAILED` error built by the top-level
`main().catch` handler (source lines 388-393). -/
def unexpectedError (msg : String) : ErrorResult :=
  createError .TRANSCRIPTION_FAILED ("Unexpected error") ("Error: " ++ msg)
    ("This is an unexpected error. Check the error details and try again.")

/-- The temporary file path derived in `downloadVideo`
(`join(TEMP_DIR, "vaam-" + Date.now() + ".mp4")`). -/
def tempFileName (ts : Nat) : String :=
  TEMP_DIR ++ ("/vaam-") ++ toString ts ++ (".mp4")

/-- JS `String.prototype.startsWith`, expressed over the character list of
the string so that it evaluates by structural recursion. -/
def jsStartsWith (s p : String) : Bool :=
  p.data.isPrefixOf s.data

/-- The flag filter from `main` (source lines 276-278): an argument is
positional when it starts with neither "-" nor "--". -/
def positionalArgs (args : List String) : List String :=
  args.filter fun a => !(jsStartsWith a ("-")) && !(jsStartsWith a ("--"))

/-- Result of one execution step that can throw: either a value together
with the output it produced, or a thrown error with the output produced
before the throw. -/
inductive StepResult (α : Type) where
  | value (v : α) (out : List OutLine)
  | thrown (msg : String) (out : List OutLine)

/-- Source `extractVideoUrl`: re-checks the capture id, logs, performs the
resolver fetch, and selects a URL from the body with the `||` chain.  A
falsy body prints `nullBodyError` itself and yields `null`.  A throwing
fetch or JSON parse propagates the exception. -/
def extractVideoUrlRun (verbose : Bool) (vaamUrl : String) (w : World) :
    StepResult (Option String) :=
  match extractCaptureId vaamUrl with
  | none => .value none []
  | some _ =>
    let l1 := logIf verbose ("Fetching video URL from Vaam API...")
    match w.resolver with
    | .throws msg => .thrown msg l1
    | .notOk => .value none l1
    | .ok none => .value none (l1 ++ [OutLine.errObj nullBodyError])
    | .ok (some d) => .value (selectVideoUrl d) l1

/-- Outcome of the `try` block of `main`: every branch of the block ends in
`process.exit(...)` (which skips the `finally`), except a propagating
exception, which does unwind through the `finally`. `tempPath` is the value
of the module global `tempFilePath` at that point — `some` exactly when a
downloaded file is on disk. -/
inductive TryOutcome where
  | exited (out : List OutLine) (code : Nat) (tempPath : Option String)
  | threw (msg : String) (out : List OutLine) (tempPath : Option String)

/-- The body of the `try` block of `main` (source lines 329-378): resolver
stage, download stage, transcription stage, success output.  Each handled
failure prints its structured error and calls `process.exit`. -/
def tryBody (verbose : Bool) (vaamUrl : String) (acc0 : List OutLine)
    (w : World) : TryOutcome :=
  match extractVideoUrlRun verbose vaamUrl w with
  | .thrown msg out => .threw msg (acc0 ++ out) none
  | .value none out =>
    .exited (acc0 ++ out ++ [OutLine.errObj (extractionFailedError vaamUrl)])
      (getExitCode .VIDEO_EXTRACTION_FAILED) none
  | .value (some videoUrl) out =>
    let acc1 := acc0 ++ out ++ logIf verbose ("Video URL: " ++ videoUrl)
    let path := tempFileName w.dlTimestamp
    let acc2 := acc1 ++ logIf verbose ("Downloading video to " ++ path ++ "...")
    match w.download with
    | .error msg =>
      .exited (acc2 ++ [OutLine.errObj (downloadFailedError msg)])
        (getExitCode .VIDEO_DOWNLOAD_FAILED) none
    | .ok sizeMB =>
      let acc3 := acc2 ++ logIf verbose ("Downloaded " ++ sizeMB ++ " MB")
        ++ logIf verbose ("Reading video file...")
        ++ logIf verbose ("Sending to Gemini for transcription...")
      match w.transcribe with
      | .error msg =>
        .exited (acc3 ++ [OutLine.errObj (transcriptionFailedError msg)])
          (getExitCode .TRANSCRIPTION_FAILED) (some path)
      | .ok transcript =>
        let acc4 := acc3 ++ logIf verbose
          ("Transcription complete (" ++ toString transcript.length ++ " characters)")
        .exited (acc4 ++ [OutLine.text transcript]) 0 (some path)

/-- Finalisation of a run.  `process.exit` inside the `try` terminates the
process at once, so the `finally` cleanup never runs on `exited` paths and
the temporary file, if created, stays on disk.  A propagating exception
runs the `finally` cleanup, then `main().catch` runs cleanup a second time
(the second `unlink` fails silently), prints the `unexpectedError` object
and exits with code 2. -/
def finishRun (verbose : Bool) : TryOutcome → RunResult
  | .exited out code tempPath =>
    { stdout := out, exitCode := code,
      tempFileExists := tempPath.isSome, cleanupRuns := 0 }
  | .threw msg out tempPath =>
    let cleanupLog :=
      match tempPath with
      | some p => logIf verbose ("Cleaned up temporary file: " ++ p)
      | none => []
    { stdout := out ++ cleanupLog ++ [OutLine.errObj (unexpectedError msg)],
      exitCode := 2, tempFileExists := false, cleanupRuns := 2 }

/-- An error exit taken before the `try` block: prints the error object and
exits with its mapped code; no temporary file exists yet and cleanup never
runs. -/
def exitWithError (e : ErrorResult) : RunResult :=
  { stdout := [OutLine.errObj e], exitCode := getExitCode e.code,
    tempFileExists := false, cleanupRuns := 0 }

/-- Source `main` plus the top-level `main().catch` handler, as a function
of the argument list, the `GEMINI_API_KEY` environment variable, and the
external-effect oracle.  Follows the source order: help flag, positional
extraction, missing-argument check (JS-falsy, so the empty string counts
as missing), URL pattern check, API-key check, then the pipeline inside
`try`/`finally`. -/
def run (args : List String) (apiKey : Option String) (w : World) :
    RunResult :=
  let helpFlag := args.contains ("--help") || args.contains ("-h")
  let verbose := args.contains ("--verbose") || args.contains ("-v")
  if helpFlag then
    { stdout := [OutLine.text helpText], exitCode := 0,
      tempFileExists := false, cleanupRuns := 0 }
  else
    match (positionalArgs args).head? with
    | none => exitWithError missingArgumentError
    | some vaamUrl =>
      if vaamUrl = "" then exitWithError missingArgumentError
      else if extractCaptureId vaamUrl = none then
        exitWithError (invalidUrlError vaamUrl)
      else
        match apiKey with
        | none => exitWithError missingApiKeyError
        | some _ =>
          let acc0 := logIf verbose ("Processing Vaam URL: " ++ vaamUrl)
          finishRun verbose (tryBody verbose vaamUrl acc0 w)

/-- A well-formed example share URL used by concrete-input theorems. -/
def validShareUrl : String := "https://app.vaam.io/share/abc123"

/-- A world in which all three external stages succeed. -/
def successWorld : World :=
  { resolver := .ok (some ⟨some ("https://cdn.example/v.mp4"), none, none⟩),
    dlTimestamp := 1700000000000,
    download := .ok ("1.23"),
    transcribe := .ok ("Hello world transcript.") }

/-- A world whose resolver returns a falsy (`null`) JSON body. -/
def nullBodyWorld : World :=
  { resolver := .ok none, dlTimestamp := 0,
    download := .error (""), transcribe := .error ("") }

/-- A world whose resolver fetch throws (network failure). -/
def resolverThrowWorld : World :=
  { resolver := .throws ("fetch failed"), dlTimestamp := 0,
    download := .error (""), transcribe := .error ("") }

/-- A world whose resolver returns a non-success HTTP status. -/
def resolverNotOkWorld : World :=
  { resolver := .notOk, dlTimestamp := 0,
    download := .error (""), transcribe := .error ("") }

/-- A world whose resolver body has all three fields present but empty. -/
def allEmptyWorld : World :=
  { resolver := .ok (some ⟨some (""), some (""), some ("")⟩),
    dlTimestamp := 0, download := .error (""), transcribe := .error ("") }

/-- The condition under which `extractVideoUrl` returns `null` without the
resolver request throwing: a non-success status, a falsy body, or a body
whose `||` selection chain yields `null`. -/
def resolverYieldsNoUrl : ResolverOutcome → Prop
  | .throws _ => False
  | .notOk => True
  | .ok none => True
  | .ok (some d) => selectVideoUrl d = none

theorem errCodesOf_nil : errCodesOf [] = [] := rfl

theorem errCodesOf_cons_text (s : String) (ls : List OutLine) :
    errCodesOf (OutLine.text s :: ls) = errCodesOf ls := rfl

theorem errCodesOf_cons_err (e : ErrorResult) (ls : List OutLine) :
    errCodesOf (OutLine.errObj e :: ls) = e.code :: errCodesOf ls := rfl

theorem errCodesOf_append (l1 l2 : List OutLine) :
    errCodesOf (l1 ++ l2) = errCodesOf l1 ++ errCodesOf l2 :=
  List.filterMap_append ..

theorem errCodesOf_logIf (v : Bool) (m : String) :
    errCodesOf (logIf v m) = [] := by
  cases v <;> rfl

/-- The capture id of a URL accepted by the pattern check is some value. -/
theorem exists_captureId_of_ne_none {u : String}
    (h : extractCaptureId u ≠ none) : ∃ c, extractCaptureId u = some c :=
  Option.ne_none_iff_exists'.mp h

/-- A URL accepted by the pattern check is not the empty string. -/
theorem ne_empty_of_captureId_ne_none {u : String}
    (h : extractCaptureId u ≠ none) : ¬ u = "" := by
  intro hu
  apply h
  rw [hu]
  decide

/-- C1: the spec claims the temporary download file is deleted on every
terminal path.  On the successful path the code calls `process.exit(0)`
inside the `try` block; `process.exit` terminates the process without
running the `finally`, so `cleanup` never executes and the temporary file
remains on disk at process exit (with exit code 0). -/
theorem c1_temp_file_survives_success :
    (run [validShareUrl] (some ("key")) successWorld).exitCode = 0
    ∧ (run [validShareUrl] (some ("key")) successWorld).tempFileExists = true
    ∧ (run [validShareUrl] (some ("key")) successWorld).cleanupRuns = 0 := by
  decide

/-- C2 counterexample: with a positional argument that is a malformed URL
and the API key unset, the run reports `INVALID_URL` (exit 1) and never
`MISSING_API_KEY`, because the URL check precedes the key check — refuting
the claim that a missing key yields `MISSING_API_KEY` regardless of URL
validity. -/
theorem c2_counterexample :
    errorCodes (run ["foo"] none successWorld) = [ErrorCode.INVALID_URL]
    ∧ ErrorCode.MISSING_API_KEY ∉ errorCodes (run ["foo"] none successWorld)
    ∧ (run ["foo"] none successWorld).exitCode = 1 := by
  decide

/-- C2 amended: for every invocation without a help flag whose first
positional argument matches the share-URL pattern, an unset
`GEMINI_API_KEY` yields exactly the `MISSING_API_KEY` error object and
exit code 1; a malformed URL instead yields `INVALID_URL` first. -/
theorem c2_amended (args : List String) (w : World) (u : String)
    (hHelp : args.contains ("--help") = false)
    (hH : args.contains ("-h") = false)
    (hHead : (positionalArgs args).head? = some u)
    (hMatch : extractCaptureId u ≠ none) :
    (run args none w).stdout = [OutLine.errObj missingApiKeyError]
    ∧ (run args none w).exitCode = 1 := by
  have hu := ne_empty_of_captureId_ne_none hMatch
  simp at hHelp hH
  simp [run, hHelp, hH, hHead, hu, hMatch, exitWithError,
    missingApiKeyError, createError, getExitCode]

/-- C2 amended, witness at a concrete valid URL with the key unset. -/
theorem c2_amended_witness :
    (run [validShareUrl] none successWorld).stdout
      = [OutLine.errObj missingApiKeyError]
    ∧ (run [validShareUrl] none successWorld).exitCode = 1 :=
  c2_amended [validShareUrl] successWorld validShareUrl (by decide)
    (by decide) (by decide) (by decide)

/-- C3: the spec claims a failing run writes exactly one JSON error object.
When the resolver responds with a success status but a falsy (`null`) JSON
body, `extractVideoUrl` prints its own `VIDEO_DOWNLOAD_FAILED` object and
then `main` prints `VIDEO_EXTRACTION_FAILED`, so a single failing run
writes two error objects (exit code 2). -/
theorem c3_two_error_objects_on_null_body :
    errorCodes (run [validShareUrl] (some ("key")) nullBodyWorld)
      = [ErrorCode.VIDEO_DOWNLOAD_FAILED, ErrorCode.VIDEO_EXTRACTION_FAILED]
    ∧ (errorCodes (run [validShareUrl] (some ("key")) nullBodyWorld)).length
        = 2
    ∧ (run [validShareUrl] (some ("key")) nullBodyWorld).exitCode = 2 := by
  decide

/-- C4 counterexample: a `--verbose` invocation in which all four stages
succeed still exits 0, but its stdout is not just the transcript — the
progress log lines also go to stdout — refuting "transcript text only"
for every successful invocation. -/
theorem c4_counterexample_verbose :
    (run ["--verbose", validShareUrl] (some ("key")) successWorld).exitCode
      = 0
    ∧ (run ["--verbose", validShareUrl] (some ("key")) successWorld).stdout
        ≠ [OutLine.text ("Hello world transcript.")]
    ∧ OutLine.text ("Processing Vaam URL: " ++ validShareUrl)
        ∈ (run ["--verbose", validShareUrl] (some ("key"))
            successWorld).stdout := by
  decide

/-- C4 amended: for every non-verbose invocation (no `--verbose`/`-v`, no
help flag) with a pattern-matching URL, a set key, and all four stages
succeeding, stdout is exactly the model's transcript and the exit code is
0; with `--verbose`, progress log lines precede the transcript on stdout. -/
theorem c4_amended (args : List String)
    (key u v sizeMB transcript : String) (d : MediaDescriptor) (w : World)
    (hHelp : args.contains ("--help") = false)
    (hH : args.contains ("-h") = false)
    (hV : args.contains ("--verbose") = false)
    (hv : args.contains ("-v") = false)
    (hHead : (positionalArgs args).head? = some u)
    (hMatch : extractCaptureId u ≠ none)
    (hres : w.resolver = .ok (some d))
    (hsel : selectVideoUrl d = some v)
    (hdl : w.download = .ok sizeMB)
    (htr : w.transcribe = .ok transcript) :
    (run args (some key) w).stdout = [OutLine.text transcript]
    ∧ (run args (some key) w).exitCode = 0 := by
  have hu := ne_empty_of_captureId_ne_none hMatch
  obtain ⟨cid, hcid⟩ := exists_captureId_of_ne_none hMatch
  simp at hHelp hH hV hv
  simp [run, tryBody, extractVideoUrlRun, finishRun, logIf, hHelp, hH, hV,
    hv, hHead, hu, hcid, hres, hsel, hdl, htr]

/-- C4 amended, witness at a concrete successful non-verbose invocation. -/
theorem c4_amended_witness :
    (run [validShareUrl] (some ("key")) successWorld).stdout
      = [OutLine.text ("Hello world transcript.")]
    ∧ (run [validShareUrl] (some ("key")) successWorld).exitCode = 0 :=
  c4_amended [validShareUrl] ("key") validShareUrl
    ("https://cdn.example/v.mp4") ("1.23") ("Hello world transcript.")
    ⟨some ("https://cdn.example/v.mp4"), none, none⟩ successWorld
    (by decide) (by decide) (by decide) (by decide) (by decide) (by decide)
    rfl (by decide) rfl rfl

/-- C5 counterexample: the argument "-h" does not match the share-URL
pattern, yet the run prints the help text and exits 0 (no error object at
all), because dash-prefixed arguments are consumed as flags — refuting
"every non-matching string yields INVALID_URL and exit 1". -/
theorem c5_counterexample_dash_arg :
    (run ["-h"] none successWorld).exitCode = 0
    ∧ errorCodes (run ["-h"] none successWorld) = [] := by
  decide

/-- C5 amended: every non-empty string that does not begin with "-" and
does not match the share-URL pattern yields exactly the `INVALID_URL`
error object and exit code 1; dash-prefixed strings are filtered out as
flags and the empty string is treated as a missing argument. -/
theorem c5_amended (s : String) (apiKey : Option String) (w : World)
    (hne : ¬ s = "")
    (hd1 : jsStartsWith s ("-") = false)
    (hd2 : jsStartsWith s ("--") = false)
    (hMatch : extractCaptureId s = none) :
    (run [s] apiKey w).stdout = [OutLine.errObj (invalidUrlError s)]
    ∧ (run [s] apiKey w).exitCode = 1 := by
  have h1 : ¬ s = "--help" := by
    intro h; rw [h] at hd1; revert hd1; decide
  have h2 : ¬ s = "-h" := by
    intro h; rw [h] at hd1; revert hd1; decide
  have hb1 : (("--help" : String) == s) = false := by
    simp [BEq.comm]; exact h1
  have hb2 : (("-h" : String) == s) = false := by
    simp [BEq.comm]; exact h2
  simp [run, List.contains, List.elem, hb1, hb2, positionalArgs, hd1, hd2,
    hne, hMatch, exitWithError, invalidUrlError, createError, getExitCode]

/-- C5 amended, witness at the concrete non-matching string "foo". -/
theorem c5_amended_witness :
    (run ["foo"] none successWorld).stdout
      = [OutLine.errObj (invalidUrlError ("foo"))]
    ∧ (run ["foo"] none successWorld).exitCode = 1 :=
  c5_amended ("foo") none successWorld (by decide) (by decide) (by decide)
    (by decide)

/-- C6: for every resolver response whose fields are each absent or a
non-empty URL string, the selected media URL is the first present field in
the fixed priority order mp4 > webm > hls (`Option.orElse` chain), across
all eight present/absent combinations. -/
theorem c6_priority_order (d : MediaDescriptor)
    (hm : d.mp4 ≠ some "") (hw : d.webm ≠ some "") (hh : d.hls ≠ some "") :
    selectVideoUrl d
      = (d.mp4.orElse fun _ => d.webm.orElse fun _ => d.hls) := by
  obtain ⟨m, wb, h⟩ := d
  simp only at hm hw hh
  cases m <;> cases wb <;> cases h <;>
    simp_all [selectVideoUrl, jsOrString, Option.orElse]

/-- C6 witness: a response containing only an `hls` field yields the `hls`
URL. -/
theorem c6_priority_order_witness :
    selectVideoUrl ⟨none, none, some ("https://cdn.example/v.m3u8")⟩
      = some ("https://cdn.example/v.m3u8") :=
  c6_priority_order ⟨none, none, some ("https://cdn.example/v.m3u8")⟩
    (by decide) (by decide) (by decide)

/-- C7 counterexample: when the resolver request itself throws, the
exception escapes `extractVideoUrl` and is reported by the top-level
handler as `TRANSCRIPTION_FAILED` (exit 2), not `VIDEO_EXTRACTION_FAILED`
— refuting the claim for the "request fails" case. -/
theorem c7_counterexample_resolver_throw :
    errorCodes (run [validShareUrl] (some ("key")) resolverThrowWorld)
      = [ErrorCode.TRANSCRIPTION_FAILED]
    ∧ ErrorCode.VIDEO_EXTRACTION_FAILED
        ∉ errorCodes (run [validShareUrl] (some ("key")) resolverThrowWorld)
    ∧ (run [validShareUrl] (some ("key")) resolverThrowWorld).exitCode
        = 2 := by
  decide

/-- C7 amended: with a valid URL and a set key, if the resolver returns a
non-success status, a falsy body, or a body with none of the mp4/webm/hls
fields truthy, the run emits a `VIDEO_EXTRACTION_FAILED` error and exits
with code 2; a throwing resolver request is instead reported as
`TRANSCRIPTION_FAILED` (also exit 2) by the top-level handler. -/
theorem c7_amended (args : List String) (key u : String) (w : World)
    (hHelp : args.contains ("--help") = false)
    (hH : args.contains ("-h") = false)
    (hHead : (positionalArgs args).head? = some u)
    (hMatch : extractCaptureId u ≠ none)
    (hres : resolverYieldsNoUrl w.resolver) :
    ErrorCode.VIDEO_EXTRACTION_FAILED ∈ errorCodes (run args (some key) w)
    ∧ (run args (some key) w).exitCode = 2 := by
  have hu := ne_empty_of_captureId_ne_none hMatch
  obtain ⟨cid, hcid⟩ := exists_captureId_of_ne_none hMatch
  simp at hHelp hH
  rcases hrw : w.resolver with msg | _ | body
  · rw [hrw] at hres; exact absurd hres (by simp [resolverYieldsNoUrl])
  · simp [run, tryBody, extractVideoUrlRun, finishRun, errorCodes,
      errCodesOf_append, errCodesOf_logIf, errCodesOf_cons_err,
      errCodesOf_nil, hHelp, hH, hHead, hu, hcid, hrw,
      extractionFailedError, createError, getExitCode, exitWithError]
  · rcases body with _ | d
    · simp [run, tryBody, extractVideoUrlRun, finishRun, errorCodes,
        errCodesOf_append, errCodesOf_logIf, errCodesOf_cons_err,
        errCodesOf_nil, hHelp, hH, hHead, hu, hcid, hrw,
        extractionFailedError, createError, getExitCode]
    · rw [hrw] at hres
      simp only [resolverYieldsNoUrl] at hres
      simp [run, tryBody, extractVideoUrlRun, finishRun, errorCodes,
        errCodesOf_append, errCodesOf_logIf, errCodesOf_cons_err,
        errCodesOf_nil, hHelp, hH, hHead, hu, hcid, hrw, hres,
        extractionFailedError, createError, getExitCode]

/-- C7 amended, witness at a resolver returning a non-success status. -/
theorem c7_amended_witness :
    ErrorCode.VIDEO_EXTRACTION_FAILED
      ∈ errorCodes (run [validShareUrl] (some ("key")) resolverNotOkWorld)
    ∧ (run [validShareUrl] (some ("key")) resolverNotOkWorld).exitCode
        = 2 :=
  c7_amended [validShareUrl] ("key") validShareUrl resolverNotOkWorld
    (by decide) (by decide) (by decide) (by decide) trivial

/-- C8: any error raised during the pipeline that no stage handler
converts (in the model, a throwing resolver request) is caught by the
top-level `main().catch` handler, which reports it as the
`TRANSCRIPTION_FAILED` structured error with the thrown message as detail
and exits with code 2, after attempting cleanup (the `finally` and the
handler each run `cleanup`, and no temporary file remains). -/
theorem c8_unhandled_error_top_level (args : List String)
    (key u msg : String) (w : World)
    (hHelp : args.contains ("--help") = false)
    (hH : args.contains ("-h") = false)
    (hHead : (positionalArgs args).head? = some u)
    (hMatch : extractCaptureId u ≠ none)
    (hres : w.resolver = .throws msg) :
    (∃ pre, (run args (some key) w).stdout
        = pre ++ [OutLine.errObj (unexpectedError msg)])
    ∧ errorCodes (run args (some key) w) = [ErrorCode.TRANSCRIPTION_FAILED]
    ∧ (run args (some key) w).exitCode = 2
    ∧ (run args (some key) w).cleanupRuns = 2
    ∧ (run args (some key) w).tempFileExists = false := by
  have hu := ne_empty_of_captureId_ne_none hMatch
  obtain ⟨cid, hcid⟩ := exists_captureId_of_ne_none hMatch
  simp at hHelp hH
  refine ⟨⟨logIf (args.contains ("--verbose") || args.contains ("-v"))
      ("Processing Vaam URL: " ++ u)
    ++ logIf (args.contains ("--verbose") || args.contains ("-v"))
      ("Fetching video URL from Vaam API..."), ?_⟩, ?_, ?_, ?_, ?_⟩ <;>
    simp [run, tryBody, extractVideoUrlRun, finishRun, errorCodes,
      errCodesOf_append, errCodesOf_logIf, errCodesOf_cons_err,
      errCodesOf_nil, hHelp, hH, hHead, hu, hcid, hres,
      unexpectedError, createError]

/-- C8 witness at a concrete throwing resolver request. -/
theorem c8_unhandled_error_top_level_witness :
    (∃ pre, (run [validShareUrl] (some ("key")) resolverThrowWorld).stdout
        = pre ++ [OutLine.errObj (unexpectedError ("fetch failed"))])
    ∧ errorCodes (run [validShareUrl] (some ("key")) resolverThrowWorld)
        = [ErrorCode.TRANSCRIPTION_FAILED]
    ∧ (run [validShareUrl] (some ("key")) resolverThrowWorld).exitCode = 2
    ∧ (run [validShareUrl] (some ("key")) resolverThrowWorld).cleanupRuns
        = 2
    ∧ (run [validShareUrl] (some ("key"))
        resolverThrowWorld).tempFileExists = false :=
  c8_unhandled_error_top_level [validShareUrl] ("key") validShareUrl
    ("fetch failed") resolverThrowWorld (by decide) (by decide) (by decide)
    (by decide) rfl

/-- C9: when every argument begins with "-" and none is `--help` or `-h`,
all arguments are filtered out as flags, so the run reports
`MISSING_ARGUMENT` with exit code 1 and never validates a dash-prefixed
string as a URL (no `INVALID_URL` is ever emitted). -/
theorem c9_dash_args_filtered (args : List String) (apiKey : Option String)
    (w : World)
    (hAll : ∀ a ∈ args, jsStartsWith a ("-") = true)
    (hHelp : args.contains ("--help") = false)
    (hH : args.contains ("-h") = false) :
    (run args apiKey w).stdout = [OutLine.errObj missingArgumentError]
    ∧ (run args apiKey w).exitCode = 1
    ∧ ErrorCode.INVALID_URL ∉ errorCodes (run args apiKey w) := by
  have hpos : positionalArgs args = [] := by
    rw [positionalArgs, List.filter_eq_nil_iff]
    intro a ha
    simp [hAll a ha]
  simp at hHelp hH
  simp [run, hHelp, hH, hpos, exitWithError, errorCodes, errCodesOf_cons_err,
    errCodesOf_nil, missingArgumentError, createError, getExitCode]

/-- C9 witness at the concrete dash-only argument list ["-v", "-x"]. -/
theorem c9_dash_args_filtered_witness :
    (run ["-v", "-x"] none successWorld).stdout
      = [OutLine.errObj missingArgumentError]
    ∧ (run ["-v", "-x"] none successWorld).exitCode = 1
    ∧ ErrorCode.INVALID_URL ∉ errorCodes (run ["-v", "-x"] none
        successWorld) :=
  c9_dash_args_filtered ["-v", "-x"] none successWorld (by decide)
    (by decide) (by decide)

/-- C10: a present-but-empty mp4 (or webm) field is falsy under the `||`
chain and is treated as absent, falling through to the next format; when
all three fields are present but empty the selection yields `null` and the
full run reports `VIDEO_EXTRACTION_FAILED` with exit code 2. -/
theorem c10_empty_string_treated_absent :
    (∀ wb h, selectVideoUrl ⟨some (""), wb, h⟩
        = selectVideoUrl ⟨none, wb, h⟩)
    ∧ (∀ m h, selectVideoUrl ⟨m, some (""), h⟩
        = selectVideoUrl ⟨m, none, h⟩)
    ∧ selectVideoUrl ⟨some (""), some (""), some ("")⟩ = none
    ∧ errorCodes (run [validShareUrl] (some ("key")) allEmptyWorld)
        = [ErrorCode.VIDEO_EXTRACTION_FAILED]
    ∧ (run [validShareUrl] (some ("key")) allEmptyWorld).exitCode = 2 := by
  refine ⟨?_, ?_, by decide, by decide, by decide⟩
  · intro wb h
    simp [selectVideoUrl, jsOrString]
  · intro m h
    cases m <;> simp [selectVideoUrl, jsOrString]
